import Mathlib

/-!
Shallow embedding of the SnapTask notification scheduling and delivery
engine (`src/services/notificationScheduler.service.ts`,
`src/services/whatsapp.service.ts`, `src/models/notificationQueue.model.ts`).

Instants are modelled as natural numbers of milliseconds since a fixed
local midnight, so that local calendar days are the half-open intervals
`[k * msPerDay, (k+1) * msPerDay)`.  The Mongo collection backing
`NotificationQueue` is modelled as a `List QueueEntry`; persisting a new
document is appending to the list, and the query helpers used by the
service are `List.any` / `List.countP` over the same predicates the
service passes to Mongo.  Asynchronous gateway calls are modelled by an
environment record carrying the outcome the Twilio call would have had.

The queue processor is special: its batch query ends in `.lean()`
(service line 413), so the loop iterates over plain objects that have no
`save` method.  Each branch's `notification.save()` therefore throws
`TypeError`, the per-entry `catch` mutates the object in memory and its
own `save()` rethrows uncaught, and the outer catch aborts the pass.
The model separates the in-memory object state the branch computes
(`objectStateAtFirstSave`), the catch mutation (`catchBlockUpdate`), and
the persisted store, which one iteration never changes
(`ProcessedEntry.stored`).
-/

namespace SnapTask

def msPerMinute : Nat := 60000

def msPerHour : Nat := 3600000

def msPerDay : Nat := 86400000

/-- `MAX_NOTIFICATIONS_PER_DAY` constant (env default "10"). -/
def MAX_NOTIFICATIONS_PER_DAY : Nat := 10

/-- `TASK_REMINDER_HOURS` constant. -/
def TASK_REMINDER_HOURS : Nat := 24

/-- A parsed "HH:MM" local time-of-day string. -/
structure TimeOfDay where
  hour : Nat
  min : Nat
deriving DecidableEq

/-- `startHour * 60 + startMin` as computed by `isQuietHours`. -/
def toMinutes (t : TimeOfDay) : Nat := t.hour * 60 + t.min

/-- `now.getHours() * 60 + now.getMinutes()`: minutes since local midnight. -/
def currentTimeMinutes (now : Nat) : Nat :=
  now % msPerDay / msPerHour * 60 + now % msPerDay % msPerHour / msPerMinute

/-- Local midnight of the day containing `t` (what `setHours(0,0,0,0)` yields). -/
def startOfDay (t : Nat) : Nat := t / msPerDay * msPerDay

/-- The `notificationPreferences` sub-document of a user. -/
structure NotificationPreferences where
  whatsappEnabled : Bool
  taskReminders : Bool
  statusUpdates : Bool
  dailySummary : Bool
  quietHoursStart : Option TimeOfDay
  quietHoursEnd : Option TimeOfDay
deriving DecidableEq

/-- The projection of a user document read by the engine.  `phoneNumber`
is the decrypted destination address; `none` stands for a missing field or
a failed decryption (`getUserPhoneNumber` returns `null` in both cases). -/
structure User where
  id : Nat
  username : String
  phoneVerified : Bool
  phoneNumber : Option String
  notificationPreferences : Option NotificationPreferences
deriving DecidableEq

/-- `user.notificationPreferences?.whatsappEnabled` (optional chaining:
an absent sub-document reads as falsy). -/
def prefWhatsappEnabled (u : User) : Bool :=
  (u.notificationPreferences.map NotificationPreferences.whatsappEnabled).getD false

/-- `user.notificationPreferences?.taskReminders`. -/
def prefTaskReminders (u : User) : Bool :=
  (u.notificationPreferences.map NotificationPreferences.taskReminders).getD false

/-- `user.notificationPreferences?.statusUpdates`. -/
def prefStatusUpdates (u : User) : Bool :=
  (u.notificationPreferences.map NotificationPreferences.statusUpdates).getD false

/-- `user.notificationPreferences?.dailySummary`. -/
def prefDailySummary (u : User) : Bool :=
  (u.notificationPreferences.map NotificationPreferences.dailySummary).getD false

/-- `isQuietHours(user)` of the scheduler service, with the implicit
`new Date()` passed explicitly as `now`. -/
def isQuietHours (user : User) (now : Nat) : Bool :=
  match user.notificationPreferences with
  | none => false
  | some prefs =>
    match prefs.quietHoursStart, prefs.quietHoursEnd with
    | some s, some e =>
      let currentTime := currentTimeMinutes now
      let quietStart := toMinutes s
      let quietEnd := toMinutes e
      if quietEnd < quietStart then
        decide (quietStart ≤ currentTime) || decide (currentTime < quietEnd)
      else
        decide (quietStart ≤ currentTime) && decide (currentTime < quietEnd)
    | _, _ => false

/-- `calculateScheduleTime(user, preferredTime?)` of the scheduler
service.  `endTime` is today's date with hours set to the quiet-hours end
(`setHours(endHour, endMin, 0, 0)`); if that instant is already past it is
advanced by one day (`setDate(getDate() + 1)`). -/
def calculateScheduleTime (user : User) (now : Nat) (preferredTime : Option Nat) : Nat :=
  let scheduleTime := preferredTime.getD now
  if !isQuietHours user now then
    scheduleTime
  else
    match user.notificationPreferences with
    | none => scheduleTime
    | some prefs =>
      match prefs.quietHoursEnd with
      | none => scheduleTime
      | some e =>
        let endTime := startOfDay now + toMinutes e * msPerMinute
        if endTime < now then endTime + msPerDay else endTime

/-- `type` enum of the `NotificationQueue` schema. -/
inductive NotificationType
| task_reminder
| status_change
| daily_summary
deriving DecidableEq

/-- `status` enum of the `NotificationQueue` schema. -/
inductive NotificationStatus
| pending
| sent
| failed
deriving DecidableEq

/-- One `NotificationQueue` document. -/
structure QueueEntry where
  user : Nat
  type : NotificationType
  taskId : Option Nat
  message : String
  scheduledFor : Nat
  status : NotificationStatus
  retryCount : Nat
  sentAt : Option Nat
  error : Option String
deriving DecidableEq

/-- Predicate of the `countDocuments` query in `getTodayNotificationCount`:
`{ user: userId, status: 'sent', sentAt: { $gte: today, $lt: tomorrow } }`
(a range condition on `sentAt` only matches documents where it is set). -/
def sentTodayFilter (userId : Nat) (now : Nat) (n : QueueEntry) : Bool :=
  decide (n.user = userId) && decide (n.status = NotificationStatus.sent) &&
    (match n.sentAt with
     | some t => decide (startOfDay now ≤ t) && decide (t < startOfDay now + msPerDay)
     | none => false)

/-- `getTodayNotificationCount(userId)` over the queue collection. -/
def getTodayNotificationCount (queue : List QueueEntry) (userId : Nat) (now : Nat) : Nat :=
  queue.countP (sentTodayFilter userId now)

/-- `hasReachedDailyLimit(userId)`: `count >= MAX_NOTIFICATIONS_PER_DAY`. -/
def hasReachedDailyLimit (queue : List QueueEntry) (userId : Nat) (now : Nat) : Bool :=
  decide (MAX_NOTIFICATIONS_PER_DAY ≤ getTodayNotificationCount queue userId now)

/-- `queueNotification(userId, type, message, scheduledFor, taskId?)`: the
fresh document saved to the collection (`status: 'pending'`,
`retryCount: 0`). -/
def queueNotification (userId : Nat) (type : NotificationType) (message : String)
    (scheduledFor : Nat) (taskId : Option Nat) : QueueEntry :=
  { user := userId
    type := type
    taskId := taskId
    message := message
    scheduledFor := scheduledFor
    status := NotificationStatus.pending
    retryCount := 0
    sentAt := none
    error := none }

/-- `Math.ceil(a / b)` for an integer `a` and positive integer `b`
(used by `formatDate` on millisecond differences). -/
def ceilDiv (a : Int) (b : Int) : Int := -((-a).ediv b)

/-- A task document (`ITask`), with `user` and `category` in their
populated form: `user` is the owning user document (or `none` if it no
longer resolves) and `categoryName` is the populated category's `name`. -/
structure ITask where
  id : Nat
  title : String
  description : String
  status : String
  dueDate : Option Nat
  user : Option User
  categoryName : Option String
deriving DecidableEq

/-- `formatStatus(status)`: lookup in `statusMap` with fallback to the
raw string. -/
def formatStatus (status : String) : String :=
  if status = "pending" then "⏳ Pending"
  else if status = "in-progress" then "⚡ In Progress"
  else if status = "completed" then "✅ Completed"
  else status

/-- `formatDate(date)` of the scheduler service: relative due-date phrase
from `Math.ceil((date - now) / dayMs)`. -/
def formatDate (now : Nat) (date : Nat) : String :=
  let diffTime : Int := (date : Int) - (now : Int)
  let diffDays : Int := ceilDiv diffTime (msPerDay : Int)
  if diffDays = 0 then "Today"
  else if diffDays = 1 then "Tomorrow"
  else if diffDays = -1 then "Yesterday"
  else if diffDays < 0 then toString (-diffDays) ++ " days ago"
  else "in " ++ toString diffDays ++ " days"

/-- `formatTaskReminderMessage(task, categoryName?)`. -/
def formatTaskReminderMessage (now : Nat) (task : ITask) (categoryName : Option String) : String :=
  let m1 := "⏰ Task Reminder\n\n📋 " ++ task.title ++ "\n"
  let m2 :=
    if task.description ≠ "" then
      let description :=
        if 100 < task.description.length then task.description.take 100 ++ "..."
        else task.description
      m1 ++ description ++ "\n\n"
    else m1
  let m3 :=
    match categoryName with
    | some c => m2 ++ "📁 Category: " ++ c ++ "\n"
    | none => m2
  match task.dueDate with
  | some d => m3 ++ "📅 Due: " ++ formatDate now d ++ "\n"
  | none => m3

/-- Predicate of the duplicate-reminder `findOne` query:
`{ user, taskId, type: 'task_reminder', status: 'pending' }`. -/
def pendingReminderFilter (userId : Nat) (taskId : Nat) (n : QueueEntry) : Bool :=
  decide (n.user = userId) && decide (n.taskId = some taskId) &&
    decide (n.type = NotificationType.task_reminder) &&
    decide (n.status = NotificationStatus.pending)

/-- The duplicate-reminder `findOne` returned a document. -/
def existingReminder (queue : List QueueEntry) (userId : Nat) (taskId : Nat) : Bool :=
  queue.any (pendingReminderFilter userId taskId)

/-- Number of pending reminder entries for one `(userId, taskId)` pair. -/
def pendingReminderCount (queue : List QueueEntry) (userId : Nat) (taskId : Nat) : Nat :=
  queue.countP (pendingReminderFilter userId taskId)

/-- "Tomorrow 8 AM": `setDate(getDate() + 1); setHours(8, 0, 0, 0)`. -/
def tomorrowAtEight (now : Nat) : Nat := startOfDay now + msPerDay + 8 * msPerHour

/-- Predicate of the `Task.find` query of `scheduleTaskReminders`:
`dueDate` within the next `TASK_REMINDER_HOURS` hours and status in
`['pending', 'in-progress']`. -/
def reminderEligibleTask (now : Nat) (t : ITask) : Bool :=
  (match t.dueDate with
   | some d => decide (now ≤ d) && decide (d ≤ now + TASK_REMINDER_HOURS * msPerHour)
   | none => false) &&
  (decide (t.status = "pending") || decide (t.status = "in-progress"))

/-- Body of the per-task loop of `scheduleTaskReminders`: skips, the
duplicate check, the daily-limit branch (queue for tomorrow 8 AM) and the
normal branch (queue at `calculateScheduleTime`). -/
def scheduleReminderForTask (queue : List QueueEntry) (now : Nat) (task : ITask) :
    List QueueEntry :=
  match task.user with
  | none => queue
  | some user =>
    if !(user.phoneVerified && prefWhatsappEnabled user) then queue
    else if !prefTaskReminders user then queue
    else if existingReminder queue user.id task.id then queue
    else if hasReachedDailyLimit queue user.id now then
      let message := formatTaskReminderMessage now task task.categoryName
      queue ++ [queueNotification user.id NotificationType.task_reminder message
        (tomorrowAtEight now) (some task.id)]
    else
      let scheduleTime := calculateScheduleTime user now none
      let message := formatTaskReminderMessage now task task.categoryName
      queue ++ [queueNotification user.id NotificationType.task_reminder message
        scheduleTime (some task.id)]

/-- One run of `scheduleTaskReminders` over the task collection `tasks`
and the queue collection `queue`.  The `findOne` duplicate check of a
later iteration sees the entries saved by earlier iterations, hence the
left fold over the live queue. -/
def scheduleTaskReminders (tasks : List ITask) (queue : List QueueEntry) (now : Nat) :
    List QueueEntry :=
  (tasks.filter (reminderEligibleTask now)).foldl
    (fun q t => scheduleReminderForTask q now t) queue

/-- `TaskSummary` of the WhatsApp service. -/
structure TaskSummary where
  totalTasks : Nat
  pendingTasks : Nat
  inProgressTasks : Nat
  completedTasks : Nat
  dueTodayTasks : Nat
  overdueTasks : Nat
deriving DecidableEq

/-- `calculateTaskSummary(userId)` over the task collection. -/
def calculateTaskSummary (tasks : List ITask) (userId : Nat) (now : Nat) : TaskSummary :=
  let today := startOfDay now
  let tomorrow := today + msPerDay
  let allTasks := tasks.filter (fun t =>
    match t.user with
    | some u => decide (u.id = userId)
    | none => false)
  { totalTasks := allTasks.length
    pendingTasks := (allTasks.filter (fun t => decide (t.status = "pending"))).length
    inProgressTasks := (allTasks.filter (fun t => decide (t.status = "in-progress"))).length
    completedTasks := (allTasks.filter (fun t => decide (t.status = "completed"))).length
    dueTodayTasks := (allTasks.filter (fun t =>
      (match t.dueDate with
       | some d => decide (today ≤ d) && decide (d < tomorrow)
       | none => false) && decide (t.status ≠ "completed"))).length
    overdueTasks := (allTasks.filter (fun t =>
      (match t.dueDate with
       | some d => decide (d < today)
       | none => false) && decide (t.status ≠ "completed"))).length }

/-- `formatDailySummaryMessage(username, summary)`. -/
def formatDailySummaryMessage (username : String) (summary : TaskSummary) : String :=
  let m1 := "☀️ Good Morning, " ++ username ++ "!\n\n"
    ++ "📊 Your Task Summary\n\n"
    ++ "Total Tasks: " ++ toString summary.totalTasks ++ "\n"
    ++ "⏳ Pending: " ++ toString summary.pendingTasks ++ "\n"
    ++ "⚡ In Progress: " ++ toString summary.inProgressTasks ++ "\n"
    ++ "✅ Completed: " ++ toString summary.completedTasks ++ "\n\n"
  let m2 :=
    if 0 < summary.dueTodayTasks then
      m1 ++ "📅 Due Today: " ++ toString summary.dueTodayTasks ++ "\n"
    else m1
  if 0 < summary.overdueTasks then
    m2 ++ "⚠️ Overdue: " ++ toString summary.overdueTasks ++ "\n"
  else m2

/-- Predicate of the duplicate-digest `findOne` query of
`scheduleDailySummaries`: `{ user, type: 'daily_summary',
status: { $in: ['pending', 'sent'] }, scheduledFor: { $gte: today, $lt: tomorrow } }`. -/
def dailySummaryTodayFilter (userId : Nat) (now : Nat) (n : QueueEntry) : Bool :=
  decide (n.user = userId) && decide (n.type = NotificationType.daily_summary) &&
    (decide (n.status = NotificationStatus.pending) ||
      decide (n.status = NotificationStatus.sent)) &&
    decide (startOfDay now ≤ n.scheduledFor) &&
    decide (n.scheduledFor < startOfDay now + msPerDay)

/-- The duplicate-digest `findOne` returned a document. -/
def existingSummaryToday (queue : List QueueEntry) (userId : Nat) (now : Nat) : Bool :=
  queue.any (dailySummaryTodayFilter userId now)

/-- A digest entry (any state, any day) belonging to one user. -/
def userDigestFilter (userId : Nat) (n : QueueEntry) : Bool :=
  decide (n.user = userId) && decide (n.type = NotificationType.daily_summary)

/-- Number of digest entries (any state, any day) for one user. -/
def userDigestCount (queue : List QueueEntry) (userId : Nat) : Nat :=
  queue.countP (userDigestFilter userId)

/-- Predicate of the `User.find` query of `scheduleDailySummaries`. -/
def digestUserFilter (u : User) : Bool :=
  u.phoneVerified && prefWhatsappEnabled u && prefDailySummary u

/-- Body of the per-user loop of `scheduleDailySummaries`: daily-limit
skip, duplicate-digest skip, then queue at
`calculateScheduleTime(user, today 8 AM)`. -/
def scheduleDailySummaryForUser (tasks : List ITask) (queue : List QueueEntry) (now : Nat)
    (user : User) : List QueueEntry :=
  if hasReachedDailyLimit queue user.id now then queue
  else if existingSummaryToday queue user.id now then queue
  else
    let summary := calculateTaskSummary tasks user.id now
    let message := formatDailySummaryMessage user.username summary
    let scheduleTime := startOfDay now + 8 * msPerHour
    let finalScheduleTime := calculateScheduleTime user now (some scheduleTime)
    queue ++ [queueNotification user.id NotificationType.daily_summary message
      finalScheduleTime none]

/-- One run of `scheduleDailySummaries` over the user collection. -/
def scheduleDailySummaries (users : List User) (tasks : List ITask)
    (queue : List QueueEntry) (now : Nat) : List QueueEntry :=
  (users.filter digestUserFilter).foldl
    (fun q u => scheduleDailySummaryForUser tasks q now u) queue

/-- `canSendNotification(user)` of the WhatsApp service: verified phone,
`whatsappEnabled === true`, and a decryptable phone number. -/
def canSendNotification (user : User) : Bool :=
  user.phoneVerified && prefWhatsappEnabled user && user.phoneNumber.isSome

/-- `sendTaskReminder(user, task, categoryName?)` of the WhatsApp
service.  `gatewayOk` is the outcome `sendMessage` would report for the
actual Twilio transmission (false also covers an unconfigured client);
every earlier `return false` of the source is a deterministic guard. -/
def sendTaskReminder (user : User) (gatewayOk : Bool) : Bool :=
  if !canSendNotification user then false
  else if !prefTaskReminders user then false
  else if user.phoneNumber.isNone then false
  else gatewayOk

/-- `sendDailySummary(user, summary)` of the WhatsApp service. -/
def sendDailySummary (user : User) (gatewayOk : Bool) : Bool :=
  if !canSendNotification user then false
  else if !prefDailySummary user then false
  else if user.phoneNumber.isNone then false
  else gatewayOk

/-- `sendStatusUpdate(user, task, oldStatus, categoryName?)` of the
WhatsApp service. -/
def sendStatusUpdate (user : User) (gatewayOk : Bool) : Bool :=
  if !canSendNotification user then false
  else if !prefStatusUpdates user then false
  else if user.phoneNumber.isNone then false
  else gatewayOk

/-- Selection predicate of the processor's `find` query:
`{ status: 'pending', scheduledFor: { $lte: now }, retryCount: { $lt: 3 } }`. -/
def isDue (now : Nat) (e : QueueEntry) : Bool :=
  decide (e.status = NotificationStatus.pending) && decide (e.scheduledFor ≤ now) &&
    decide (e.retryCount < 3)

/-- Collaborators of one processor pass: `populate('user')`,
`populate('taskId')`, the outcome the WhatsApp service's Twilio
transmission would report, and whether that transmission throws instead
(the non-retryable trial-account error that `sendMessage` rethrows). -/
structure ProcEnv where
  findUser : Nat → Option User
  findTask : Nat → Option ITask
  gatewayOk : Bool
  gatewayThrows : Bool

/-- Lines 478–495 of the processor: on success mark `sent`/`sentAt`, on
failure increment `retryCount`, fail terminally at the ceiling, otherwise
reschedule with exponential backoff `2^retryCount * 5` minutes. -/
def applyOutcome (now : Nat) (e : QueueEntry) (success : Bool) : QueueEntry :=
  if success then
    { e with status := NotificationStatus.sent, sentAt := some now }
  else
    let retryCount := e.retryCount + 1
    if 3 ≤ retryCount then
      { e with retryCount := retryCount, status := NotificationStatus.failed,
               error := some "Max retry attempts reached" }
    else
      { e with retryCount := retryCount,
               scheduledFor := now + 2 ^ retryCount * 5 * msPerMinute }

/-- The in-memory state of one batch entry at the moment the loop body
of `processNotificationQueue` calls its first `notification.save()`:
resolve the user, terminal failures for a vanished or ineligible user,
quiet-hours and daily-limit reschedules, the per-type dispatch (with the
`status_change` short-circuit that sets sent without a gateway call),
then `applyOutcome`.  The batch is fetched with `.lean()` (service line
413), so the entries are plain objects without a `save` method: this
state is only ever assigned on the plain object and is never persisted —
the `save()` call throws `TypeError` (see `processOneNotification`). -/
def objectStateAtFirstSave (env : ProcEnv) (queue : List QueueEntry) (now : Nat)
    (e : QueueEntry) : QueueEntry :=
  match env.findUser e.user with
  | none =>
    { e with status := NotificationStatus.failed, error := some "User not found" }
  | some user =>
    if !(user.phoneVerified && prefWhatsappEnabled user) then
      { e with status := NotificationStatus.failed, error := some "Notifications disabled" }
    else if isQuietHours user now then
      { e with scheduledFor := calculateScheduleTime user now none }
    else if MAX_NOTIFICATIONS_PER_DAY ≤ getTodayNotificationCount queue e.user now then
      { e with scheduledFor := tomorrowAtEight now }
    else
      let populatedTask := e.taskId.bind env.findTask
      if decide (e.type = NotificationType.task_reminder) && populatedTask.isSome then
        applyOutcome now e (sendTaskReminder user env.gatewayOk)
      else if decide (e.type = NotificationType.daily_summary) then
        applyOutcome now e (sendDailySummary user env.gatewayOk)
      else if decide (e.type = NotificationType.status_change) && populatedTask.isSome then
        { e with status := NotificationStatus.sent, sentAt := some now }
      else
        applyOutcome now e false

/-- Whether the loop body reaches a WhatsApp send call for this entry.
The send happens before the first `save()`, so it is a real side effect
even though no store write ever lands. -/
def gatewayInvokedInBranch (env : ProcEnv) (queue : List QueueEntry) (now : Nat)
    (e : QueueEntry) : Bool :=
  match env.findUser e.user with
  | none => false
  | some user =>
    if !(user.phoneVerified && prefWhatsappEnabled user) then false
    else if isQuietHours user now then false
    else if MAX_NOTIFICATIONS_PER_DAY ≤ getTodayNotificationCount queue e.user now then false
    else
      let populatedTask := e.taskId.bind env.findTask
      (decide (e.type = NotificationType.task_reminder) && populatedTask.isSome) ||
        decide (e.type = NotificationType.daily_summary)

/-- Message of the `TypeError` raised by calling `save()` on a plain
object returned by a `.lean()` query. -/
def saveTypeError : String := "notification.save is not a function"

/-- Message of the non-retryable error `sendMessage` rethrows for a
Twilio trial-account rejection. -/
def trialAccountError : String :=
  "This phone number cannot receive messages on a Twilio trial account. Please verify the number in your Twilio dashboard or upgrade to a paid account."

/-- The `catch` block of the per-notification loop: increment
`retryCount`, record the caught error's message, mark `failed` at the
ceiling — with no backoff reschedule.  Its trailing `save()` call throws
again, uncaught. -/
def catchBlockUpdate (errMsg : String) (e : QueueEntry) : QueueEntry :=
  let retryCount := e.retryCount + 1
  { e with retryCount := retryCount
           error := some errMsg
           status := if 3 ≤ retryCount then NotificationStatus.failed else e.status }

/-- Outcome of one iteration of the per-notification loop over the
`.lean()` batch. -/
structure ProcessedEntry where
  stored : QueueEntry
  memory : QueueEntry
  gatewayInvoked : Bool
  thrown : String
deriving DecidableEq

/-- One iteration of the per-notification loop of
`processNotificationQueue` on a `.lean()` batch entry.  The branch logic
computes `objectStateAtFirstSave` on the plain object (invoking the
gateway in the dispatch branches) and calls `save()`, which throws
`TypeError` because the object is not a document; the `catch` then
increments `retryCount`, records the message and calls `save()` again,
which throws the same `TypeError` uncaught.  When the gateway call
itself throws (trial-account error), the branch never reaches its first
`save()` and the `catch` receives the gateway error instead — the final
`save()` still throws uncaught.  Either way `stored` — what the store
holds afterwards — is the unchanged entry, `memory` is the plain
object's final in-memory state, and the iteration ends in an uncaught
`TypeError` that aborts the pass. -/
def processOneNotification (env : ProcEnv) (queue : List QueueEntry) (now : Nat)
    (e : QueueEntry) : ProcessedEntry :=
  let gw := gatewayInvokedInBranch env queue now e
  let memory :=
    if gw && env.gatewayThrows then catchBlockUpdate trialAccountError e
    else catchBlockUpdate saveTypeError (objectStateAtFirstSave env queue now e)
  { stored := e, memory := memory, gatewayInvoked := gw, thrown := saveTypeError }

/-- The batch of the processor's `find` query: due entries, capped at
the batch size 50.  The source also sorts by `scheduledFor` ascending;
the order is not modelled because it changes nothing modelled here — the
first iteration throws before any store write, whichever entry comes
first. -/
def dueBatch (queue : List QueueEntry) (now : Nat) : List QueueEntry :=
  (queue.filter (isDue now)).take 50

/-- One run of `processNotificationQueue` over the store.  With no due
entry the loop body never runs and the run completes; otherwise the
first iteration ends in the uncaught `TypeError` from the `catch`
block's `save()`, the outer catch logs and rethrows, and the run aborts
with the store untouched.  The returned store is `queue` unchanged in
every case. -/
def processNotificationQueue (env : ProcEnv) (queue : List QueueEntry) (now : Nat) :
    Except String (List QueueEntry) :=
  match dueBatch queue now with
  | [] => Except.ok queue
  | e :: _ => Except.error (processOneNotification env queue now e).thrown

/-- `formatStatusChangeMessage(task, oldStatus, newStatus, categoryName?)`. -/
def formatStatusChangeMessage (task : ITask) (oldStatus : String) (newStatus : String)
    (categoryName : Option String) : String :=
  let emoji := if newStatus = "completed" then "🎉"
    else if newStatus = "in-progress" then "🚀"
    else "📢"
  let title := if newStatus = "completed" then "Task Completed!"
    else if newStatus = "in-progress" then "Task Started"
    else "Task Status Updated"
  let m1 := emoji ++ " " ++ title ++ "\n\n📋 " ++ task.title ++ "\n"
  let m2 :=
    match categoryName with
    | some c => m1 ++ "📁 Category: " ++ c ++ "\n"
    | none => m1
  m2 ++ "Previous: " ++ formatStatus oldStatus ++ "\n"
    ++ "Current: " ++ formatStatus newStatus ++ "\n"

/-- Observable outcome of one `scheduleStatusChangeNotification` call. -/
inductive StatusOutcome
| aborted
| sentImmediately (delivered : Bool)
| enqueued
| errorCaught
deriving DecidableEq

/-- Collaborators of the status-change producer: `User.findById`,
`Task.findById(...).populate('category')`, the Twilio transmission
outcome, and whether `sendStatusUpdate` throws (the non-retryable trial
account error that `sendMessage` rethrows). -/
structure StatusEnv where
  findUser : Nat → Option User
  findTask : Nat → Option ITask
  gatewayOk : Bool
  gatewayThrows : Bool

/-- The `await whatsappService.sendStatusUpdate(...)` call as seen by the
producer: either a boolean outcome or a thrown error. -/
def sendStatusUpdateCall (env : StatusEnv) (user : User) : Except String Bool :=
  if env.gatewayThrows then Except.error "trial account error"
  else Except.ok (sendStatusUpdate user env.gatewayOk)

/-- The `try` block of `scheduleStatusChangeNotification`: eligibility
guards (each `return` is `aborted`), then either the immediate
synchronous send (when the computed schedule time is within 60 s of now)
or the enqueue of a `status_change` entry. -/
def scheduleStatusChangeBody (env : StatusEnv) (queue : List QueueEntry) (now : Nat)
    (userId : Nat) (taskId : Nat) (oldStatus : String) (newStatus : String) :
    Except String (List QueueEntry × StatusOutcome) :=
  match env.findUser userId with
  | none => Except.ok (queue, StatusOutcome.aborted)
  | some user =>
    if !(user.phoneVerified && prefWhatsappEnabled user) then
      Except.ok (queue, StatusOutcome.aborted)
    else if !prefStatusUpdates user then
      Except.ok (queue, StatusOutcome.aborted)
    else if hasReachedDailyLimit queue userId now then
      Except.ok (queue, StatusOutcome.aborted)
    else
      match env.findTask taskId with
      | none => Except.ok (queue, StatusOutcome.aborted)
      | some task =>
        let scheduleTime := calculateScheduleTime user now none
        let isImmediate := decide (scheduleTime ≤ now + 60000)
        if isImmediate then
          match sendStatusUpdateCall env user with
          | Except.error e => Except.error e
          | Except.ok delivered => Except.ok (queue, StatusOutcome.sentImmediately delivered)
        else
          let message := formatStatusChangeMessage task oldStatus newStatus task.categoryName
          Except.ok (queue ++ [queueNotification userId NotificationType.status_change
            message scheduleTime (some taskId)], StatusOutcome.enqueued)

/-- `scheduleStatusChangeNotification(userId, taskId, oldStatus,
newStatus)`: the body wrapped in the `try/catch` that logs and swallows
every error, so the caller always gets a normal return. -/
def scheduleStatusChangeNotification (env : StatusEnv) (queue : List QueueEntry) (now : Nat)
    (userId : Nat) (taskId : Nat) (oldStatus : String) (newStatus : String) :
    List QueueEntry × StatusOutcome :=
  match scheduleStatusChangeBody env queue now userId taskId oldStatus newStatus with
  | Except.ok r => r
  | Except.error _ => (queue, StatusOutcome.errorCaught)

/-- `n` successive status-change triggers against the same queue state,
returning the final queue and how many of them took the immediate
synchronous send path. -/
def iterateStatusChange (env : StatusEnv) (queue : List QueueEntry) (now : Nat)
    (userId : Nat) (taskId : Nat) (oldStatus : String) (newStatus : String) :
    Nat → List QueueEntry × Nat
  | 0 => (queue, 0)
  | n + 1 =>
    let prev := iterateStatusChange env queue now userId taskId oldStatus newStatus n
    let step := scheduleStatusChangeNotification env prev.1 now userId taskId oldStatus newStatus
    (step.1, prev.2 + match step.2 with
      | StatusOutcome.sentImmediately _ => 1
      | _ => 0)

/-! ### Concrete fixtures used by witnesses and counterexamples -/

/-- Preferences with quiet hours 22:00–08:00 and every kind enabled. -/
def prefsQ : NotificationPreferences :=
  { whatsappEnabled := true, taskReminders := true, statusUpdates := true,
    dailySummary := true,
    quietHoursStart := some { hour := 22, min := 0 },
    quietHoursEnd := some { hour := 8, min := 0 } }

/-- Preferences with no quiet window configured. -/
def prefsNoQuiet : NotificationPreferences :=
  { prefsQ with quietHoursStart := none, quietHoursEnd := none }

/-- A fully eligible user with the 22:00–08:00 quiet window. -/
def userQ : User :=
  { id := 1, username := "ada", phoneVerified := true,
    phoneNumber := some "+15550001111",
    notificationPreferences := some prefsQ }

/-- A fully eligible user with no quiet window. -/
def userD : User :=
  { userQ with id := 7, notificationPreferences := some prefsNoQuiet }

/-- A user whose phone number is absent (or failed to decrypt) but whose
switches are all on. -/
def userNoPhone : User := { userQ with id := 2, phoneNumber := none }

/-- 23:30 local time on day 3. -/
def t2330 : Nat := 3 * msPerDay + 23 * msPerHour + 30 * msPerMinute

/-- 06:00 local time on day 3. -/
def t0600 : Nat := 3 * msPerDay + 6 * msPerHour

/-- 14:00 local time on day 3. -/
def t1400 : Nat := 3 * msPerDay + 14 * msPerHour

/-- A task of `userQ` due within the reminder window. -/
def taskA : ITask :=
  { id := 5, title := "t", description := "", status := "pending",
    dueDate := some (t1400 + msPerHour), user := some userQ, categoryName := none }

/-- Processor collaborators: `userQ` and `taskA` resolvable, the gateway
transmission failing. -/
def envFail : ProcEnv :=
  { findUser := fun i => if i = 1 then some userQ else none,
    findTask := fun i => if i = 5 then some taskA else none,
    gatewayOk := false, gatewayThrows := false }

/-- Processor collaborators for `userNoPhone`, with a working gateway. -/
def envNoPhone : ProcEnv :=
  { findUser := fun i => if i = 2 then some userNoPhone else none,
    findTask := fun i => if i = 5 then some taskA else none,
    gatewayOk := true, gatewayThrows := false }

/-- A due pending reminder entry of `userQ` for `taskA` on its second
retry (`retryCount = 2`). -/
def e2 : QueueEntry :=
  { user := 1, type := NotificationType.task_reminder, taskId := some 5,
    message := "m", scheduledFor := t1400, status := NotificationStatus.pending,
    retryCount := 2, sentAt := none, error := none }

/-- A due pending `status_change` entry whose task reference (id 9) no
longer resolves. -/
def e7 : QueueEntry :=
  { user := 1, type := NotificationType.status_change, taskId := some 9,
    message := "m", scheduledFor := t1400, status := NotificationStatus.pending,
    retryCount := 0, sentAt := none, error := none }

/-- A due pending reminder entry of `userNoPhone`. -/
def e8 : QueueEntry := { e2 with user := 2, retryCount := 0 }

/-- A digest entry of `userD` for day 3 that ended in state `failed`. -/
def failedDigest : QueueEntry :=
  { user := 7, type := NotificationType.daily_summary, taskId := none,
    message := "m", scheduledFor := 3 * msPerDay + 9 * msPerHour,
    status := NotificationStatus.failed, retryCount := 3, sentAt := none,
    error := some "Max retry attempts reached" }

/-- Status-change producer collaborators: `userQ` and `taskA`
resolvable, gateway delivering without throwing. -/
def envS : StatusEnv :=
  { findUser := fun i => if i = 1 then some userQ else none,
    findTask := fun i => if i = 5 then some taskA else none,
    gatewayOk := true, gatewayThrows := false }

/-- A queue holding one pending reminder of `userQ` for `taskA`. -/
def q2 : List QueueEntry :=
  [{ user := 1, type := NotificationType.task_reminder, taskId := some 5,
     message := "m", scheduledFor := t1400, status := NotificationStatus.pending,
     retryCount := 0, sentAt := none, error := none }]

/-- A queue holding one still-pending digest of `userD` for day 3. -/
def q9 : List QueueEntry := [{ failedDigest with status := NotificationStatus.pending }]

/-- The entry `e2` before any failed attempt (`retryCount = 0`). -/
def e0 : QueueEntry := { e2 with retryCount := 0 }

/-- A due pending `status_change` entry whose task reference resolves. -/
def e7ok : QueueEntry := { e7 with taskId := some 5 }

/-- Processor collaborators where no user resolves. -/
def envNoUser : ProcEnv :=
  { findUser := fun _ => none, findTask := fun _ => none, gatewayOk := true,
    gatewayThrows := false }

/-! ### Theorems -/

/-- C3: quiet-window predicate.  `currentTimeMinutes` is minutes since
local midnight; quiet mode is false when either bound is absent; with
both present it is `start ≤ now < end` for a non-spanning window and
`now ≥ start ∨ now < end` for a window spanning midnight. -/
theorem quiet_window_predicate (user : User) (now : Nat) :
    currentTimeMinutes now = now % msPerDay / msPerMinute ∧
    (user.notificationPreferences = none → isQuietHours user now = false) ∧
    (∀ p, user.notificationPreferences = some p →
      (p.quietHoursStart = none ∨ p.quietHoursEnd = none) →
      isQuietHours user now = false) ∧
    (∀ p s e, user.notificationPreferences = some p →
      p.quietHoursStart = some s → p.quietHoursEnd = some e →
      toMinutes s ≤ toMinutes e →
      (isQuietHours user now = true ↔
        toMinutes s ≤ currentTimeMinutes now ∧ currentTimeMinutes now < toMinutes e)) ∧
    (∀ p s e, user.notificationPreferences = some p →
      p.quietHoursStart = some s → p.quietHoursEnd = some e →
      toMinutes e < toMinutes s →
      (isQuietHours user now = true ↔
        (toMinutes s ≤ currentTimeMinutes now ∨ currentTimeMinutes now < toMinutes e))) := by
  refine ⟨?_, ?_, ?_, ?_, ?_⟩
  · unfold currentTimeMinutes msPerDay msPerHour msPerMinute
    omega
  · intro h
    simp [isQuietHours, h]
  · intro p hp hne
    rcases hne with h | h
    · simp [isQuietHours, hp, h]
    · cases hs : p.quietHoursStart <;> simp [isQuietHours, hp, h, hs]
  · intro p s e hp hs he hle
    simp only [isQuietHours, hp, hs, he]
    rw [if_neg (by omega : ¬ toMinutes e < toMinutes s)]
    simp
  · intro p s e hp hs he hlt
    simp only [isQuietHours, hp, hs, he]
    rw [if_pos hlt]
    simp

/-- C3 witness: `userQ` (22:00–08:00) is quiet at 23:30; `userD` (no
window) is never quiet. -/
theorem quiet_window_predicate_witness :
    isQuietHours userQ t2330 = true ∧ isQuietHours userD t1400 = false :=
  ⟨((quiet_window_predicate userQ t2330).2.2.2.2 prefsQ
      { hour := 22, min := 0 } { hour := 8, min := 0 } rfl rfl rfl
      (by decide)).mpr (by decide),
   (quiet_window_predicate userD t1400).2.2.1 prefsNoQuiet rfl (Or.inl rfl)⟩

/-- C4: inside the quiet window, `calculateScheduleTime` returns the next
quiet-end boundary as an absolute instant: it lands on the quiet-end
time-of-day, lies in `[now, now + 1 day)`, equals today's boundary when
that has not passed, and advances one calendar day when it has. -/
theorem next_eligible_boundary (user : User) (p : NotificationPreferences)
    (s e : TimeOfDay) (now : Nat)
    (hp : user.notificationPreferences = some p)
    (_hs : p.quietHoursStart = some s)
    (he : p.quietHoursEnd = some e)
    (hv : toMinutes e < 1440)
    (hq : isQuietHours user now = true) :
    calculateScheduleTime user now none % msPerDay = toMinutes e * msPerMinute ∧
    now ≤ calculateScheduleTime user now none ∧
    calculateScheduleTime user now none < now + msPerDay ∧
    (startOfDay now + toMinutes e * msPerMinute < now →
      calculateScheduleTime user now none
        = startOfDay now + msPerDay + toMinutes e * msPerMinute) ∧
    (now ≤ startOfDay now + toMinutes e * msPerMinute →
      calculateScheduleTime user now none = startOfDay now + toMinutes e * msPerMinute) := by
  have hr : calculateScheduleTime user now none =
      if startOfDay now + toMinutes e * msPerMinute < now
      then startOfDay now + toMinutes e * msPerMinute + msPerDay
      else startOfDay now + toMinutes e * msPerMinute := by
    simp only [calculateScheduleTime, hq, hp, he, Bool.not_true, Bool.false_eq_true,
      if_false]
  rw [hr]
  simp only [startOfDay, msPerDay, msPerMinute] at *
  split <;> refine ⟨by omega, by omega, by omega, by omega, by omega⟩

/-- C4 witness: with the 22:00–08:00 window, at 23:30 the result is
08:00 of the next day, and at 06:00 it is 08:00 of the same day. -/
theorem next_eligible_boundary_witness :
    calculateScheduleTime userQ t2330 none = 4 * msPerDay + 8 * msPerHour ∧
    calculateScheduleTime userQ t0600 none = 3 * msPerDay + 8 * msPerHour ∧
    t2330 ≤ calculateScheduleTime userQ t2330 none ∧
    t0600 ≤ calculateScheduleTime userQ t0600 none := by
  refine ⟨by decide, by decide, ?_, ?_⟩
  · exact (next_eligible_boundary userQ prefsQ { hour := 22, min := 0 }
      { hour := 8, min := 0 } t2330 rfl rfl rfl (by decide) (by decide)).2.1
  · exact (next_eligible_boundary userQ prefsQ { hour := 22, min := 0 }
      { hour := 8, min := 0 } t0600 rfl rfl rfl (by decide) (by decide)).2.1

/-- On the `.lean()` batch, one processor iteration never writes the
store and always ends in the uncaught `save()` `TypeError`. -/
theorem processor_iteration_never_writes (env : ProcEnv) (queue : List QueueEntry)
    (now : Nat) (e : QueueEntry) :
    (processOneNotification env queue now e).stored = e ∧
    (processOneNotification env queue now e).thrown = saveTypeError :=
  ⟨rfl, rfl⟩

/-- A pass that selects at least one due entry aborts with the `save()`
`TypeError`, leaving the store as it was. -/
theorem processor_pass_throws (env : ProcEnv) (queue : List QueueEntry) (now : Nat)
    (e : QueueEntry) (he : e ∈ queue) (hd : isDue now e = true) :
    processNotificationQueue env queue now = Except.error saveTypeError := by
  have h1 : e ∈ queue.filter (isDue now) := List.mem_filter.mpr ⟨he, hd⟩
  have hne : dueBatch queue now ≠ [] := by
    unfold dueBatch
    intro hcontra
    have hlen := congrArg List.length hcontra
    rw [List.length_take] at hlen
    have hpos : 0 < (queue.filter (isDue now)).length :=
      List.length_pos.mpr (List.ne_nil_of_mem h1)
    have hlen2 : min 50 ((queue.filter (isDue now)).length) = 0 := by
      simpa only [List.length_nil] using hlen
    omega
  unfold processNotificationQueue
  rcases hb : dueBatch queue now with _ | ⟨x, xs⟩
  · exact absurd hb hne
  · rfl

/-- C1: evaluation at the failing input.  The due entry `e2`
(`retryCount = 2`) with a failing gateway: the branch computes the
terminal transition on the `.lean()` plain object, but `save()` throws,
so the store keeps `e2` unchanged and still pending — due again on every
later pass, 40 minutes later included — the pass aborts with the
`TypeError`, and the catch block pushes the in-memory counter to 4. -/
theorem retry_backoff_transition_never_persists :
    isDue t1400 e2 = true ∧
    e2.retryCount = 2 ∧
    (objectStateAtFirstSave envFail [] t1400 e2).status = NotificationStatus.failed ∧
    (objectStateAtFirstSave envFail [] t1400 e2).retryCount = 3 ∧
    (processOneNotification envFail [] t1400 e2).stored = e2 ∧
    (processOneNotification envFail [] t1400 e2).memory.retryCount = 4 ∧
    (processOneNotification envFail [] t1400 e2).thrown = saveTypeError ∧
    isDue (t1400 + 2 ^ 3 * 5 * msPerMinute)
      (processOneNotification envFail [] t1400 e2).stored = true ∧
    processNotificationQueue envFail [e2] t1400 = Except.error saveTypeError := by
  refine ⟨by decide, by decide, by decide, by decide, by decide, by decide, by decide,
    by decide, rfl⟩

/-- C5: evaluation at the failing input.  At 23:30 `userQ` is quiet and
the branch computes the reschedule — only `scheduledFor` differs in
memory — but `save()` throws: the store keeps `e0` with its old
`scheduledFor`, and the catch then increments the in-memory attempts
counter before the iteration aborts. -/
theorem deferral_reschedule_never_persists :
    isDue t2330 e0 = true ∧
    isQuietHours userQ t2330 = true ∧
    (objectStateAtFirstSave envFail [] t2330 e0).scheduledFor
      = calculateScheduleTime userQ t2330 none ∧
    (objectStateAtFirstSave envFail [] t2330 e0).retryCount = e0.retryCount ∧
    (processOneNotification envFail [] t2330 e0).stored = e0 ∧
    (processOneNotification envFail [] t2330 e0).stored.scheduledFor = e0.scheduledFor ∧
    (processOneNotification envFail [] t2330 e0).memory.retryCount = e0.retryCount + 1 ∧
    (processOneNotification envFail [] t2330 e0).thrown = saveTypeError := by
  decide

/-- C7: evaluation at the failing input.  The due `status_change` entry
`e7ok` (eligible user, resolvable task) gets `sent` and `sentAt` set on
the plain object only, with no gateway call, but `save()` throws: the
stored entry stays pending with no `sentAt` and is selected again later.
The entry `e7`, whose task no longer resolves, does not even reach that
branch — its in-memory counter is incremented instead. -/
theorem status_change_sent_never_persists :
    isDue t1400 e7ok = true ∧
    (objectStateAtFirstSave envFail [] t1400 e7ok).status = NotificationStatus.sent ∧
    (objectStateAtFirstSave envFail [] t1400 e7ok).sentAt = some t1400 ∧
    (processOneNotification envFail [] t1400 e7ok).gatewayInvoked = false ∧
    (processOneNotification envFail [] t1400 e7ok).stored = e7ok ∧
    (processOneNotification envFail [] t1400 e7ok).stored.status
      = NotificationStatus.pending ∧
    (processOneNotification envFail [] t1400 e7ok).stored.sentAt = none ∧
    isDue t2330 (processOneNotification envFail [] t1400 e7ok).stored = true ∧
    (processOneNotification envFail [] t1400 e7ok).thrown = saveTypeError ∧
    (objectStateAtFirstSave envFail [] t1400 e7).retryCount = e7.retryCount + 1 := by
  decide

/-- C8: evaluation at the failing input.  With an unresolvable user the
branch sets `failed` and "User not found" on the plain object only;
`save()` throws, the stored entry stays pending and every later pass
selects it again.  A user with notifications on but no destination
address (`userNoPhone`) is not failed terminally either: the send call
returns false and the in-memory counter is incremented. -/
theorem terminal_failed_never_persists :
    isDue t1400 e0 = true ∧
    envNoUser.findUser e0.user = none ∧
    (objectStateAtFirstSave envNoUser [] t1400 e0).status = NotificationStatus.failed ∧
    (objectStateAtFirstSave envNoUser [] t1400 e0).error = some "User not found" ∧
    (processOneNotification envNoUser [] t1400 e0).stored = e0 ∧
    isDue t2330 (processOneNotification envNoUser [] t1400 e0).stored = true ∧
    (processOneNotification envNoUser [] t1400 e0).thrown = saveTypeError ∧
    processNotificationQueue envNoUser [e0] t1400 = Except.error saveTypeError ∧
    (objectStateAtFirstSave envNoPhone [] t1400 e8).status = NotificationStatus.pending ∧
    (objectStateAtFirstSave envNoPhone [] t1400 e8).retryCount = e8.retryCount + 1 := by
  refine ⟨by decide, by decide, by decide, by decide, by decide, by decide, by decide,
    rfl, by decide, by decide⟩

/-- Reduction of the status-change producer body for an eligible user
with daily capacity and a resolvable task. -/
theorem statusChangeBody_eligible (env : StatusEnv) (queue : List QueueEntry) (now : Nat)
    (userId taskId : Nat) (oldStatus newStatus : String) (user : User) (task : ITask)
    (hu : env.findUser userId = some user)
    (h1 : (user.phoneVerified && prefWhatsappEnabled user) = true)
    (h2 : prefStatusUpdates user = true)
    (h3 : hasReachedDailyLimit queue userId now = false)
    (ht : env.findTask taskId = some task) :
    scheduleStatusChangeBody env queue now userId taskId oldStatus newStatus
      = (if decide (calculateScheduleTime user now none ≤ now + 60000) then
          match sendStatusUpdateCall env user with
          | Except.error err => Except.error err
          | Except.ok delivered => Except.ok (queue, StatusOutcome.sentImmediately delivered)
        else
          Except.ok (queue ++ [queueNotification userId NotificationType.status_change
            (formatStatusChangeMessage task oldStatus newStatus task.categoryName)
            (calculateScheduleTime user now none) (some taskId)],
            StatusOutcome.enqueued)) := by
  simp only [scheduleStatusChangeBody, hu, h1, h2, h3, Bool.not_true, Bool.false_eq_true,
    if_false, ht]

/-- For an eligible user whose computed schedule time is within 60
seconds of now and with a non-throwing gateway, the producer performs the
immediate synchronous send and the queue is untouched. -/
theorem statusChange_immediate_eq (env : StatusEnv) (queue : List QueueEntry) (now : Nat)
    (userId taskId : Nat) (oldStatus newStatus : String) (user : User) (task : ITask)
    (hu : env.findUser userId = some user)
    (h1 : (user.phoneVerified && prefWhatsappEnabled user) = true)
    (h2 : prefStatusUpdates user = true)
    (h3 : hasReachedDailyLimit queue userId now = false)
    (ht : env.findTask taskId = some task)
    (him : calculateScheduleTime user now none ≤ now + 60000)
    (hth : env.gatewayThrows = false) :
    scheduleStatusChangeNotification env queue now userId taskId oldStatus newStatus
      = (queue, StatusOutcome.sentImmediately (sendStatusUpdate user env.gatewayOk)) := by
  unfold scheduleStatusChangeNotification
  rw [statusChangeBody_eligible env queue now userId taskId oldStatus newStatus user task
    hu h1 h2 h3 ht]
  rw [if_pos (decide_eq_true him)]
  simp [sendStatusUpdateCall, hth]

/-- C6: for an eligible status-change trigger, when the computed eligible
time is within 60 seconds of now the delivery is attempted immediately
and synchronously with no queue entry created (and a thrown gateway error
is caught, never propagated); otherwise a `status_change` entry is
enqueued with the computed `scheduledFor`. -/
theorem status_change_fast_path (env : StatusEnv) (queue : List QueueEntry) (now : Nat)
    (userId taskId : Nat) (oldStatus newStatus : String) (user : User) (task : ITask)
    (hu : env.findUser userId = some user)
    (h1 : (user.phoneVerified && prefWhatsappEnabled user) = true)
    (h2 : prefStatusUpdates user = true)
    (h3 : hasReachedDailyLimit queue userId now = false)
    (ht : env.findTask taskId = some task) :
    (calculateScheduleTime user now none ≤ now + 60000 → env.gatewayThrows = false →
      scheduleStatusChangeNotification env queue now userId taskId oldStatus newStatus
        = (queue, StatusOutcome.sentImmediately (sendStatusUpdate user env.gatewayOk))) ∧
    (calculateScheduleTime user now none ≤ now + 60000 → env.gatewayThrows = true →
      scheduleStatusChangeNotification env queue now userId taskId oldStatus newStatus
        = (queue, StatusOutcome.errorCaught)) ∧
    (now + 60000 < calculateScheduleTime user now none →
      scheduleStatusChangeNotification env queue now userId taskId oldStatus newStatus
        = (queue ++ [queueNotification userId NotificationType.status_change
            (formatStatusChangeMessage task oldStatus newStatus task.categoryName)
            (calculateScheduleTime user now none) (some taskId)],
           StatusOutcome.enqueued)) := by
  refine ⟨?_, ?_, ?_⟩
  · intro him hth
    exact statusChange_immediate_eq env queue now userId taskId oldStatus newStatus
      user task hu h1 h2 h3 ht him hth
  · intro him hth
    unfold scheduleStatusChangeNotification
    rw [statusChangeBody_eligible env queue now userId taskId oldStatus newStatus user task
      hu h1 h2 h3 ht]
    rw [if_pos (decide_eq_true him)]
    simp [sendStatusUpdateCall, hth]
  · intro hlate
    unfold scheduleStatusChangeNotification
    rw [statusChangeBody_eligible env queue now userId taskId oldStatus newStatus user task
      hu h1 h2 h3 ht]
    rw [if_neg (by simp [decide_eq_true_eq]; omega)]

/-- C6 witness: status change for `userQ` at 14:00 (not quiet) takes the
immediate synchronous path with no queue entry; at 23:30 (quiet) a
`status_change` entry is enqueued instead. -/
theorem status_change_fast_path_witness :
    scheduleStatusChangeNotification envS [] t1400 1 5 "pending" "completed"
      = ([], StatusOutcome.sentImmediately true) ∧
    (scheduleStatusChangeNotification envS q2 t2330 1 5 "pending" "completed").2
      = StatusOutcome.enqueued := by
  constructor
  · have h := (status_change_fast_path envS [] t1400 1 5 "pending" "completed" userQ taskA
      (by decide) (by decide) (by decide) (by decide) (by decide)).1 (by decide) rfl
    rw [h]
    decide
  · have h := (status_change_fast_path envS q2 t2330 1 5 "pending" "completed" userQ taskA
      (by decide) (by decide) (by decide) (by decide) (by decide)).2.2 (by decide)
    rw [h]

/-- C10: the immediate synchronous path writes nothing to the queue, so
after any number `n` of immediately-delivered status-change triggers the
queue — and hence the Daily Pacing Counter, which counts only queue
entries marked sent today — is unchanged, while `n` messages were
delivered; `n` may exceed the daily ceiling. -/
theorem immediate_path_uncounted (env : StatusEnv) (queue : List QueueEntry) (now : Nat)
    (userId taskId : Nat) (oldStatus newStatus : String) (user : User) (task : ITask)
    (hu : env.findUser userId = some user)
    (h1 : (user.phoneVerified && prefWhatsappEnabled user) = true)
    (h2 : prefStatusUpdates user = true)
    (h3 : hasReachedDailyLimit queue userId now = false)
    (ht : env.findTask taskId = some task)
    (him : calculateScheduleTime user now none ≤ now + 60000)
    (hth : env.gatewayThrows = false) :
    ∀ n,
      (iterateStatusChange env queue now userId taskId oldStatus newStatus n).1 = queue ∧
      (iterateStatusChange env queue now userId taskId oldStatus newStatus n).2 = n ∧
      getTodayNotificationCount
        (iterateStatusChange env queue now userId taskId oldStatus newStatus n).1 userId now
        = getTodayNotificationCount queue userId now := by
  intro n
  induction n with
  | zero => exact ⟨rfl, rfl, rfl⟩
  | succ n ih =>
    have hstep := statusChange_immediate_eq env queue now userId taskId oldStatus newStatus
      user task hu h1 h2 h3 ht him hth
    have hq1 : (iterateStatusChange env queue now userId taskId oldStatus newStatus
        (n + 1)).1 = queue := by
      simp only [iterateStatusChange, ih.1, hstep]
    have hq2 : (iterateStatusChange env queue now userId taskId oldStatus newStatus
        (n + 1)).2 = n + 1 := by
      simp only [iterateStatusChange, ih.1, hstep, ih.2.1]
    exact ⟨hq1, hq2, by rw [hq1]⟩

/-- C10 witness: eleven immediate status-change sends for `userQ` leave
the queue empty and the pacing count at 0, though 11 exceeds the daily
ceiling of 10. -/
theorem immediate_path_uncounted_witness :
    (iterateStatusChange envS [] t1400 1 5 "pending" "completed" 11).1 = [] ∧
    (iterateStatusChange envS [] t1400 1 5 "pending" "completed" 11).2 = 11 ∧
    MAX_NOTIFICATIONS_PER_DAY < 11 ∧
    getTodayNotificationCount
      (iterateStatusChange envS [] t1400 1 5 "pending" "completed" 11).1 1 t1400 = 0 := by
  have h := immediate_path_uncounted envS [] t1400 1 5 "pending" "completed" userQ taskA
    (by decide) (by decide) (by decide) (by decide) (by decide) (by decide) rfl 11
  refine ⟨h.1, h.2.1, by decide, ?_⟩
  rw [h.2.2]
  decide

/-- Appending one entry changes the pending-reminder count of a pair by
whether the new entry matches. -/
theorem pendingReminderCount_append (q : List QueueEntry) (x : QueueEntry) (u t : Nat) :
    pendingReminderCount (q ++ [x]) u t
      = pendingReminderCount q u t + (if pendingReminderFilter u t x then 1 else 0) := by
  unfold pendingReminderCount
  rw [List.countP_append, List.countP_singleton]

/-- The duplicate-reminder `findOne` finds nothing exactly when the
pending-reminder count of the pair is zero. -/
theorem existingReminder_false_iff (q : List QueueEntry) (u t : Nat) :
    existingReminder q u t = false ↔ pendingReminderCount q u t = 0 := by
  unfold existingReminder pendingReminderCount
  constructor
  · intro h
    rw [List.countP_eq_zero]
    intro a ha hpa
    have htrue : q.any (pendingReminderFilter u t) = true :=
      List.any_eq_true.mpr ⟨a, ha, hpa⟩
    rw [h] at htrue
    cases htrue
  · intro h
    cases hb : q.any (pendingReminderFilter u t) with
    | false => rfl
    | true =>
      obtain ⟨a, ha, hpa⟩ := List.any_eq_true.mp hb
      exact absurd hpa (List.countP_eq_zero.mp h a ha)

/-- A reminder entry produced for a different `(user, task)` pair does
not match the pair's pending-reminder predicate. -/
theorem pendingFilter_new_entry_false (u t uid tid : Nat) (msg : String) (sched : Nat)
    (hm : ¬(uid = u ∧ tid = t)) :
    pendingReminderFilter u t (queueNotification uid NotificationType.task_reminder
      msg sched (some tid)) = false := by
  apply Bool.eq_false_iff.mpr
  intro hcontra
  apply hm
  simpa [pendingReminderFilter, queueNotification, Bool.and_eq_true,
    decide_eq_true_eq] using hcontra

/-- The per-task reminder step either leaves the queue unchanged or
appends exactly one pending reminder entry for a pair that had none. -/
theorem scheduleReminderForTask_cases (q : List QueueEntry) (now : Nat) (task : ITask) :
    scheduleReminderForTask q now task = q ∨
    ∃ user sched, task.user = some user ∧
      existingReminder q user.id task.id = false ∧
      scheduleReminderForTask q now task
        = q ++ [queueNotification user.id NotificationType.task_reminder
            (formatTaskReminderMessage now task task.categoryName) sched (some task.id)] := by
  unfold scheduleReminderForTask
  rcases hus : task.user with _ | user
  · exact Or.inl rfl
  · simp only []
    split_ifs with ha hb hc hd
    · exact Or.inl rfl
    · exact Or.inl rfl
    · exact Or.inl rfl
    · refine Or.inr ⟨user, tomorrowAtEight now, rfl, ?_, rfl⟩
      revert hc
      cases existingReminder q user.id task.id <;> simp
    · refine Or.inr ⟨user, calculateScheduleTime user now none, rfl, ?_, rfl⟩
      revert hc
      cases existingReminder q user.id task.id <;> simp

/-- When a pending reminder for the pair already exists, the per-task
step does not change the pair's pending-reminder count. -/
theorem step_pendingCount_ge_one (q : List QueueEntry) (now : Nat) (task : ITask)
    (u t : Nat) (h : 1 ≤ pendingReminderCount q u t) :
    pendingReminderCount (scheduleReminderForTask q now task) u t
      = pendingReminderCount q u t := by
  rcases scheduleReminderForTask_cases q now task with heq | ⟨user, sched, _, hex, heq⟩
  · rw [heq]
  · rw [heq, pendingReminderCount_append]
    by_cases hm : user.id = u ∧ task.id = t
    · exfalso
      rcases hm with ⟨hm1, hm2⟩
      rw [hm1, hm2, existingReminder_false_iff] at hex
      omega
    · rw [pendingFilter_new_entry_false u t user.id task.id _ _ hm]
      simp

/-- The per-task step preserves "at most one pending reminder per pair". -/
theorem step_pendingCount_le_one (q : List QueueEntry) (now : Nat) (task : ITask)
    (u t : Nat) (h : pendingReminderCount q u t ≤ 1) :
    pendingReminderCount (scheduleReminderForTask q now task) u t ≤ 1 := by
  rcases scheduleReminderForTask_cases q now task with heq | ⟨user, sched, _, hex, heq⟩
  · rw [heq]; exact h
  · rw [heq, pendingReminderCount_append]
    by_cases hm : user.id = u ∧ task.id = t
    · rcases hm with ⟨hm1, hm2⟩
      rw [hm1, hm2, existingReminder_false_iff] at hex
      split <;> omega
    · rw [pendingFilter_new_entry_false u t user.id task.id _ _ hm]
      simpa using h

/-- Fold form of `step_pendingCount_ge_one` over a task list. -/
theorem sweep_foldl_count_eq (now u t : Nat) (l : List ITask) :
    ∀ q, 1 ≤ pendingReminderCount q u t →
    pendingReminderCount
      (l.foldl (fun q' t' => scheduleReminderForTask q' now t') q) u t
      = pendingReminderCount q u t := by
  induction l with
  | nil => intro q _; rfl
  | cons task l ih =>
    intro q h
    rw [List.foldl_cons]
    have h1 := step_pendingCount_ge_one q now task u t h
    rw [ih _ (by rw [h1]; exact h), h1]

/-- Fold form of `step_pendingCount_le_one` over a task list. -/
theorem sweep_foldl_count_le (now u t : Nat) (l : List ITask) :
    ∀ q, pendingReminderCount q u t ≤ 1 →
    pendingReminderCount
      (l.foldl (fun q' t' => scheduleReminderForTask q' now t') q) u t ≤ 1 := by
  induction l with
  | nil => intro q h; exact h
  | cons task l ih =>
    intro q h
    rw [List.foldl_cons]
    exact ih _ (step_pendingCount_le_one q now task u t h)

/-- C2: a reminder-producer run never creates a second reminder entry for
a `(userId, taskId)` pair that already has a pending one — its
pending-reminder count is unchanged — and "at most one pending reminder
entry per pair" is preserved by every run. -/
theorem reminder_duplicate_suppression (tasks : List ITask) (queue : List QueueEntry)
    (now u t : Nat) :
    (1 ≤ pendingReminderCount queue u t →
      pendingReminderCount (scheduleTaskReminders tasks queue now) u t
        = pendingReminderCount queue u t) ∧
    (pendingReminderCount queue u t ≤ 1 →
      pendingReminderCount (scheduleTaskReminders tasks queue now) u t ≤ 1) := by
  unfold scheduleTaskReminders
  exact ⟨fun h => sweep_foldl_count_eq now u t _ queue h,
    fun h => sweep_foldl_count_le now u t _ queue h⟩

/-- C2 witness: with a pending reminder for `(1, 5)` already queued, a
sweep that sees `taskA` again creates no second entry. -/
theorem reminder_duplicate_suppression_witness :
    1 ≤ pendingReminderCount q2 1 5 ∧
    pendingReminderCount (scheduleTaskReminders [taskA] q2 t1400) 1 5
      = pendingReminderCount q2 1 5 :=
  ⟨by decide, (reminder_duplicate_suppression [taskA] q2 t1400 1 5).1 (by decide)⟩

/-- Appending one entry changes a user's digest count by whether the new
entry is that user's digest. -/
theorem userDigestCount_append (q : List QueueEntry) (x : QueueEntry) (uid : Nat) :
    userDigestCount (q ++ [x]) uid
      = userDigestCount q uid + (if userDigestFilter uid x then 1 else 0) := by
  unfold userDigestCount
  rw [List.countP_append, List.countP_singleton]

/-- The duplicate-digest check still finds its document after an append. -/
theorem existingSummaryToday_append (q : List QueueEntry) (x : QueueEntry)
    (uid now : Nat) (h : existingSummaryToday q uid now = true) :
    existingSummaryToday (q ++ [x]) uid now = true := by
  unfold existingSummaryToday at *
  rw [List.any_append, h]
  rfl

/-- The per-user digest step either leaves the queue unchanged or appends
one digest entry for a user whose duplicate check found nothing. -/
theorem digestStep_cases (tasks : List ITask) (q : List QueueEntry) (now : Nat)
    (user : User) :
    scheduleDailySummaryForUser tasks q now user = q ∨
    (existingSummaryToday q user.id now = false ∧
      scheduleDailySummaryForUser tasks q now user
        = q ++ [queueNotification user.id NotificationType.daily_summary
            (formatDailySummaryMessage user.username (calculateTaskSummary tasks user.id now))
            (calculateScheduleTime user now (some (startOfDay now + 8 * msPerHour))) none]) := by
  unfold scheduleDailySummaryForUser
  split_ifs with h1 h2
  · exact Or.inl rfl
  · exact Or.inl rfl
  · refine Or.inr ⟨?_, rfl⟩
    revert h2
    cases existingSummaryToday q user.id now <;> simp

/-- When the duplicate-digest check succeeds for `uid`, the per-user step
changes neither `uid`'s digest count nor the check's outcome. -/
theorem digestStep_count (tasks : List ITask) (q : List QueueEntry) (now : Nat)
    (user : User) (uid : Nat) (h : existingSummaryToday q uid now = true) :
    userDigestCount (scheduleDailySummaryForUser tasks q now user) uid
      = userDigestCount q uid ∧
    existingSummaryToday (scheduleDailySummaryForUser tasks q now user) uid now = true := by
  rcases digestStep_cases tasks q now user with heq | ⟨hex, heq⟩
  · rw [heq]; exact ⟨rfl, h⟩
  · by_cases hm : user.id = uid
    · rw [hm] at hex
      rw [hex] at h
      cases h
    · rw [heq, userDigestCount_append]
      have hf : userDigestFilter uid (queueNotification user.id
          NotificationType.daily_summary
          (formatDailySummaryMessage user.username (calculateTaskSummary tasks user.id now))
          (calculateScheduleTime user now (some (startOfDay now + 8 * msPerHour))) none)
          = false := by
        simp [userDigestFilter, queueNotification, hm]
      rw [hf]
      exact ⟨by simp, existingSummaryToday_append q _ uid now h⟩

/-- Fold form of `digestStep_count` over a user list. -/
theorem digestSweep_foldl (tasks : List ITask) (now uid : Nat) (l : List User) :
    ∀ q, existingSummaryToday q uid now = true →
    userDigestCount
      (l.foldl (fun q' u => scheduleDailySummaryForUser tasks q' now u) q) uid
      = userDigestCount q uid := by
  induction l with
  | nil => intro q _; rfl
  | cons user l ih =>
    intro q h
    rw [List.foldl_cons]
    have hc := digestStep_count tasks q now user uid h
    rw [ih _ hc.2, hc.1]

/-- C9 (amended): when a `daily_summary` entry in state `pending` or
`sent` scheduled for today already exists for a user, a digest-producer
run creates no new digest entry for that user; an entry in state `failed`
does not suppress (see the counterexample). -/
theorem digest_duplicate_suppression (users : List User) (tasks : List ITask)
    (queue : List QueueEntry) (now uid : Nat)
    (h : existingSummaryToday queue uid now = true) :
    userDigestCount (scheduleDailySummaries users tasks queue now) uid
      = userDigestCount queue uid := by
  unfold scheduleDailySummaries
  exact digestSweep_foldl tasks now uid _ queue h

/-- C9 witness: with a pending digest for user 7 scheduled today, the
sweep over `userD` creates nothing new. -/
theorem digest_duplicate_suppression_witness :
    existingSummaryToday q9 7 t1400 = true ∧
    userDigestCount (scheduleDailySummaries [userD] [] q9 t1400) 7
      = userDigestCount q9 7 :=
  ⟨by decide, digest_duplicate_suppression [userD] [] q9 t1400 7 (by decide)⟩

/-- C9 counterexample: a `daily_summary` entry for user 7 exists for
today in state `failed`, yet the digest run creates a second digest entry
for that user — "regardless of state" does not hold. -/
theorem digest_failed_entry_not_suppressing :
    failedDigest.type = NotificationType.daily_summary ∧
    failedDigest.status = NotificationStatus.failed ∧
    failedDigest.user = userD.id ∧
    startOfDay t1400 ≤ failedDigest.scheduledFor ∧
    failedDigest.scheduledFor < startOfDay t1400 + msPerDay ∧
    userDigestCount [failedDigest] 7 = 1 ∧
    userDigestCount (scheduleDailySummaries [userD] [] [failedDigest] t1400) 7 = 2 := by
  decide

end SnapTask
